import Mathlib

/-!
Shallow embedding of the salary-inflation backend
(`backend/services/inflation_service.py` and
`backend/services/salary_calculator.py`).

Python floats are modelled as exact rationals (`ℚ`), calendar dates as
year/month/day integer triples ordered lexicographically (Python `datetime`
comparison at midnight), Python dicts as association lists, and `Optional`
values as `Option`.  Python truthiness tests on numbers (`if x:` /
`x if x else None`) are modelled explicitly as `x ≠ 0` tests, since both
`None` and `0.0` are falsy in Python.  The remote BLS fetch and the on-disk
cache are modelled by passing the fetch outcome and the cache contents as
explicit arguments; the extra `Bool` returned by `get_cpi_data` records
whether the remote source was consulted during the call.
-/

namespace InflationApp

/-- Calendar date as carried by Python `datetime` objects parsed from
`YYYY-MM-DD` strings (time always midnight, so comparison is lexicographic
on year, month, day). -/
structure PyDate where
  year : ℤ
  month : ℤ
  day : ℤ
deriving DecidableEq

/-- Python `datetime` strict comparison: lexicographic on (year, month, day). -/
def PyDate.lt (a b : PyDate) : Prop :=
  a.year < b.year ∨ (a.year = b.year ∧ (a.month < b.month ∨ (a.month = b.month ∧ a.day < b.day)))

instance (a b : PyDate) : Decidable (PyDate.lt a b) :=
  inferInstanceAs (Decidable (a.year < b.year ∨ (a.year = b.year ∧ (a.month < b.month ∨ (a.month = b.month ∧ a.day < b.day)))))

instance : LT PyDate := ⟨PyDate.lt⟩

instance (a b : PyDate) : Decidable (a < b) :=
  inferInstanceAs (Decidable (PyDate.lt a b))

/-- Date `a ≤ b`, as the negation of `b < a` (the orders coincide on the
linear lexicographic order; see `PyDate.le_iff`). -/
def PyDate.le (a b : PyDate) : Prop := ¬ PyDate.lt b a

instance : LE PyDate := ⟨PyDate.le⟩

instance (a b : PyDate) : Decidable (a ≤ b) :=
  inferInstanceAs (Decidable (¬ PyDate.lt b a))

theorem PyDate.lt_def (a b : PyDate) :
    a < b ↔ (a.year < b.year ∨ (a.year = b.year ∧ (a.month < b.month ∨ (a.month = b.month ∧ a.day < b.day)))) :=
  Iff.rfl

theorem PyDate.le_def (a b : PyDate) : a ≤ b ↔ ¬ b < a := Iff.rfl

/-- Sanity check that the defined `≤` is the reflexive closure of `<`. -/
theorem PyDate.le_iff (a b : PyDate) : a ≤ b ↔ a < b ∨ a = b := by
  obtain ⟨y1, m1, d1⟩ := a
  obtain ⟨y2, m2, d2⟩ := b
  simp only [PyDate.le_def, PyDate.lt_def, PyDate.mk.injEq]
  omega

/-- Association-list lookup, modelling Python dict membership/indexing
(`k in d` / `d[k]`). -/
def alookup {α : Type} [DecidableEq α] {β : Type} (k : α) : List (α × β) → Option β
  | [] => none
  | (k1, v) :: rest => if k = k1 then some v else alookup k rest

/-- Official BLS CPI-U annual-average anchor table (the `fallback_cpi` dict
literal, in its source order, which is ascending by year). -/
def fallback_cpi : List (ℤ × ℚ) :=
  [(1913, 9.9), (1920, 20.0), (1930, 16.7), (1940, 14.0), (1950, 24.1),
   (1960, 29.6), (1970, 38.8), (1980, 82.4), (1990, 130.7), (1991, 136.2),
   (1995, 152.4), (2000, 172.2), (2005, 195.3), (2010, 218.1),
   (2011, 224.9), (2012, 229.6), (2013, 233.0), (2014, 236.7), (2015, 237.0),
   (2016, 240.0), (2017, 245.1), (2018, 251.1), (2019, 255.7), (2020, 258.8),
   (2021, 271.0), (2022, 292.7), (2023, 307.0), (2024, 315.6)]

/-- Key order used when sorting the anchor table (`sorted(fallback_cpi.keys())`;
sorting the key-value pairs by key is equivalent since dict keys are unique). -/
def keyLE (a b : ℤ × ℚ) : Prop := a.1 ≤ b.1

instance : DecidableRel keyLE := fun a b => inferInstanceAs (Decidable (a.1 ≤ b.1))

/-- Strict key order, used to state that the anchor table is strictly sorted. -/
def keyLT (a b : ℤ × ℚ) : Prop := a.1 < b.1

instance : DecidableRel keyLT := fun a b => inferInstanceAs (Decidable (a.1 < b.1))

/-- The interpolation loop
`for i in range(len(years) - 1): if years[i] <= year <= years[i + 1]: return ...`
over consecutive anchors; `none` models falling through the loop (the
degenerate `return 250.0` is applied by the caller via `getD`). -/
def interpScan (year : ℤ) : List (ℤ × ℚ) → Option ℚ
  | p :: q :: rest =>
      if p.1 ≤ year ∧ year ≤ q.1 then
        some (p.2 + ((year : ℚ) - (p.1 : ℚ)) / ((q.1 : ℚ) - (p.1 : ℚ)) * (q.2 - p.2))
      else interpScan year (q :: rest)
  | _ => none

/-- Embeds `InflationService.interpolate_cpi`.  The empty-table branch is unreachable
for the built-in non-empty table (Python would raise at `min([])` there). -/
def interpolate_cpi (year : ℤ) (tbl : List (ℤ × ℚ)) : ℚ :=
  match alookup year tbl with
  | some v => v
  | none =>
    match List.insertionSort keyLE tbl with
    | [] => 250.0
    | p0 :: rest =>
      if year < p0.1 then
        -- Extrapolate backwards (assume 3% inflation)
        p0.2 / (1.03 : ℚ) ^ (p0.1 - year).toNat
      else
        let pN := (p0 :: rest).getLast (List.cons_ne_nil p0 rest)
        if pN.1 < year then
          -- Extrapolate forwards (assume 2.5% inflation)
          pN.2 * (1.025 : ℚ) ^ (year - pN.1).toNat
        else
          -- Interpolate between two known years; default fallback 250.0
          (interpScan year (p0 :: rest)).getD 250.0

/-- The monthly CPI-U table of `InflationService.get_monthly_cpi`
(2014 and 2024 monthly data). -/
def monthly_cpi_data : List ((ℤ × ℤ) × ℚ) :=
  [((2014, 1), 233.9), ((2014, 2), 234.8), ((2014, 3), 236.3), ((2014, 4), 237.1),
   ((2014, 5), 237.9), ((2014, 6), 238.3), ((2014, 7), 238.3), ((2014, 8), 237.9),
   ((2014, 9), 238.0), ((2014, 10), 237.4), ((2014, 11), 236.2), ((2014, 12), 234.8),
   ((2024, 1), 308.4), ((2024, 2), 310.3), ((2024, 3), 312.2), ((2024, 4), 313.5),
   ((2024, 5), 314.1), ((2024, 6), 314.0), ((2024, 7), 313.5), ((2024, 8), 314.7),
   ((2024, 9), 315.3), ((2024, 10), 315.6), ((2024, 11), 315.2), ((2024, 12), 315.6)]

/-- Embeds `InflationService.get_annual_cpi`.  Declared `Optional[float]` in the
source but every return path yields a number, so the result type is `ℚ`. -/
def get_annual_cpi (year : ℤ) : ℚ :=
  match alookup year fallback_cpi with
  | some v => v
  | none => interpolate_cpi year fallback_cpi

/-- Embeds `InflationService.get_monthly_cpi`.  The `if annual_cpi:` truthiness test
is modelled as `annual_cpi ≠ 0` (`0.0` is falsy in Python). -/
def get_monthly_cpi (year month : ℤ) : Option ℚ :=
  match alookup (year, month) monthly_cpi_data with
  | some v => some v
  | none =>
      let annual_cpi := get_annual_cpi year
      if annual_cpi ≠ 0 then some annual_cpi
      else none

/-- Embeds `InflationService.calculate_compound_inflation`; the
`if start_cpi and end_cpi:` truthiness test becomes nonzero-ness of both. -/
def calculate_compound_inflation (start_year end_year : ℤ) : ℚ :=
  let start_cpi := get_annual_cpi start_year
  let end_cpi := get_annual_cpi end_year
  if start_cpi ≠ 0 ∧ end_cpi ≠ 0 then (end_cpi - start_cpi) / start_cpi
  else 0.025 * ((end_year : ℚ) - (start_year : ℚ))

/-- Embeds `InflationService.calculate_inflation_rate`: fixed reference period
`current_year = 2024`, `current_month = 12`; `if start_cpi and current_cpi:`
is truthiness (both present and nonzero). -/
def calculate_inflation_rate (start_date : PyDate) : ℚ × ℤ :=
  let current_year : ℤ := 2024
  let current_month : ℤ := 12
  let start_year := start_date.year
  let start_month := start_date.month
  let years_elapsed := current_year - start_year
  let start_cpi := get_monthly_cpi start_year start_month
  let current_cpi := get_monthly_cpi current_year current_month
  match start_cpi, current_cpi with
  | some s, some c =>
      if s ≠ 0 ∧ c ≠ 0 then ((c - s) / s, years_elapsed)
      else (calculate_compound_inflation start_year current_year, years_elapsed)
  | _, _ => (calculate_compound_inflation start_year current_year, years_elapsed)

/-- One `{year, period, value}` data point of a BLS series payload
(`value` kept numeric rather than stringified). -/
structure DataPoint where
  year : ℤ
  period : String
  value : ℚ
deriving DecidableEq

/-- The BLS response shape `{status, Results: {series: [{seriesID, data}]}}`,
flattened to the single series the service ever requests. -/
structure SeriesPayload where
  status : String
  seriesID : String
  data : List DataPoint
deriving DecidableEq

/-- BLS CPI-U Series ID for All Urban Consumers (1982-84=100). -/
def cpi_series_id : String := "CUUR0000SA0"

/-- Embeds `InflationService.get_fallback_cpi_data`: one annual-average (`"M13"`)
point per year of the inclusive range, valued by `interpolate_cpi`. -/
def get_fallback_cpi_data (start_year end_year : ℤ) : SeriesPayload :=
  let series_data :=
    (List.range (end_year + 1 - start_year).toNat).map
      (fun i =>
        let year := start_year + (i : ℤ)
        { year := year, period := "M13", value := interpolate_cpi year fallback_cpi : DataPoint })
  { status := "REQUEST_SUCCEEDED", seriesID := cpi_series_id, data := series_data }

/-- Outcome of the remote BLS request attempt inside `get_cpi_data`'s `try`
block: the three exception paths (network error, `raise_for_status`,
malformed JSON) and a decoded response payload (whose `status` field may
still report a remote failure). -/
inductive FetchResult where
  | networkError
  | httpStatusError
  | malformedPayload
  | response (p : SeriesPayload)
deriving DecidableEq

/-- The cache dict persisted by `load_from_cache` / `save_to_cache`. -/
abbrev Cache := List (String × SeriesPayload)

/-- The cache key string, start year and end year joined by an underscore. -/
def cacheKey (start_year end_year : ℤ) : String :=
  toString start_year ++ "_" ++ toString end_year

/-- Dict assignment `cached_data[cache_key] = result`: unconditional
overwrite of any previous value for the key. -/
def cacheInsert (key : String) (v : SeriesPayload) (c : Cache) : Cache :=
  (key, v) :: c.filter (fun kv => kv.1 != key)

/-- Embeds `InflationService.get_cpi_data`, with the cache contents and the remote
fetch outcome passed explicitly.  Returns the payload, the resulting cache
contents, and a `Bool` recording whether the remote source was consulted
(always `true` on a cache miss, `false` on a hit).  Every failure path of
the source's `try/except` lands in the fallback branch; nothing is raised. -/
def get_cpi_data (cached_data : Cache) (fetch : FetchResult)
    (start_year end_year : ℤ) : SeriesPayload × Cache × Bool :=
  let cache_key := cacheKey start_year end_year
  match alookup cache_key cached_data with
  | some v => (v, cached_data, false)
  | none =>
    match fetch with
    | FetchResult.response result =>
        if result.status = "REQUEST_SUCCEEDED" then
          -- Cache the successful response (write-through) and return it
          (result, cacheInsert cache_key result cached_data, true)
        else
          -- `raise Exception(...)`, caught by the enclosing handler: fallback
          (get_fallback_cpi_data start_year end_year, cached_data, true)
    | _ => (get_fallback_cpi_data start_year end_year, cached_data, true)

/-- Rounding of Python's `round` on floats to a number of decimal digits,
modelled exactly on `ℚ` as round-half-to-even of `x * 10^n`. -/
def roundHalfEven (x : ℚ) : ℤ :=
  let f := ⌊x⌋
  let frac := x - (f : ℚ)
  if frac < 1 / 2 then f
  else if 1 / 2 < frac then f + 1
  else if f % 2 = 0 then f else f + 1

/-- Python `round(x, ndigits)` on the rational model. -/
def pyRound (x : ℚ) (ndigits : ℕ) : ℚ :=
  (roundHalfEven (x * (10 : ℚ) ^ ndigits) : ℚ) / (10 : ℚ) ^ ndigits

/-- The wire-shape `InflationResponse` record (`models/inflation_models.py`);
`start_date` kept as the parsed date. -/
structure InflationResponse where
  original_salary : ℚ
  start_date : PyDate
  inflation_adjusted_salary : ℚ
  cola_adjusted_salary : Option ℚ
  defacto_paycut : Option ℚ
  category : String
  summary : String
  inflation_rate : ℚ
  years_elapsed : ℤ
deriving DecidableEq

/-- The boundary expression `round(x, 2) if x else None` of
`calculate_adjusted_salary`: in Python both `None` and `0.0` are falsy, so a
value of exactly zero is turned into `None` rather than rounded. -/
def truthyRound2 (x : Option ℚ) : Option ℚ :=
  match x with
  | some v => if v ≠ 0 then some (pyRound v 2) else none
  | none => none

/-- Embeds `SalaryCalculator._handle_pre_1991`.  The summary f-string's numeric
interpolation is abstracted to its template text; no claim depends on it. -/
def _handle_pre_1991 (start_date : PyDate) (original_salary inflation_adjusted_salary : ℚ) :
    String × Option ℚ × Option ℚ × String :=
  ("Pre-1991 Employment", none, none,
   "Your original salary from that year would be worth approximately the inflation-adjusted amount today when adjusted for inflation using official CPI data.")

/-- Embeds `SalaryCalculator._handle_post_2021` (same shape as pre-1991, different
category label and summary wording). -/
def _handle_post_2021 (start_date : PyDate) (original_salary inflation_adjusted_salary : ℚ) :
    String × Option ℚ × Option ℚ × String :=
  ("Post-2021 Employment", none, none,
   "Your salary from that year would be worth approximately the inflation-adjusted amount in current purchasing power when adjusted for inflation.")

/-- Embeds `SalaryCalculator._handle_cola_period`: add the flat $8,000 step-up, the
hard `>= 75000` threshold branch, the de facto pay cut, and the two summary
phrasings chosen on `defacto_paycut > 0`. -/
def _handle_cola_period (start_date : PyDate) (original_salary inflation_adjusted_salary : ℚ) :
    String × Option ℚ × Option ℚ × String :=
  let category := "1991-2021 Employment (COLA Period)"
  -- Step 1: Add $8,000 to starting salary
  let cola_base_salary := original_salary + 8000
  -- Step 2: Apply COLA adjustment based on threshold
  let cola_adjusted_salary : ℚ :=
    if 75000 ≤ cola_base_salary then cola_base_salary + 3000
    else cola_base_salary * 1.04
  -- Step 3: Calculate de facto pay cut
  let defacto_paycut := inflation_adjusted_salary - cola_adjusted_salary
  let summary :=
    if 0 < defacto_paycut then
      "After COLA adjustments your effective salary falls short of the inflation-adjusted value, resulting in a de facto pay cut."
    else
      "After COLA adjustments your purchasing power has kept pace with or exceeded inflation."
  (category, some cola_adjusted_salary, some defacto_paycut, summary)

/-- Embeds `SalaryCalculator._determine_category_and_calculate`: classify against
the fixed boundary dates with `<` / `>` and dispatch to the handler. -/
def _determine_category_and_calculate (start_date : PyDate)
    (original_salary inflation_adjusted_salary : ℚ) :
    String × Option ℚ × Option ℚ × String :=
  let pre_1991 : PyDate := ⟨1991, 1, 1⟩
  let post_2021 : PyDate := ⟨2021, 12, 31⟩
  if start_date < pre_1991 then
    _handle_pre_1991 start_date original_salary inflation_adjusted_salary
  else if post_2021 < start_date then
    _handle_post_2021 start_date original_salary inflation_adjusted_salary
  else
    _handle_cola_period start_date original_salary inflation_adjusted_salary

/-- Embeds `SalaryCalculator.calculate_adjusted_salary`: fetch the inflation rate,
compute the inflation-adjusted salary, dispatch on the regime, and round all
currency outputs to 2 decimals and the rate to 4, through the truthiness
test `round(x, 2) if x else None` on the two optional fields. -/
def calculate_adjusted_salary (start_date : PyDate) (original_salary : ℚ) : InflationResponse :=
  let ir := calculate_inflation_rate start_date
  let inflation_rate := ir.1
  let years_elapsed := ir.2
  let inflation_adjusted_salary := original_salary * (1 + inflation_rate)
  let res := _determine_category_and_calculate start_date original_salary inflation_adjusted_salary
  { original_salary := original_salary
    start_date := start_date
    inflation_adjusted_salary := pyRound inflation_adjusted_salary 2
    cola_adjusted_salary := truthyRound2 res.2.1
    defacto_paycut := truthyRound2 res.2.2.1
    category := res.1
    summary := res.2.2.2
    inflation_rate := pyRound inflation_rate 4
    years_elapsed := years_elapsed }

/-- A concrete successful remote payload (empty data list), used to exhibit
cache behaviour on concrete runs. -/
def demoPayload : SeriesPayload :=
  { status := "REQUEST_SUCCEEDED", seriesID := cpi_series_id, data := [] }

/-! ### Basic lemmas about the embedding -/

theorem alookup_mem {α : Type} [DecidableEq α] {β : Type} {k : α} {v : β} :
    ∀ {l : List (α × β)}, alookup k l = some v → (k, v) ∈ l := by
  intro l
  induction l with
  | nil => intro h; simp [alookup] at h
  | cons p rest ih =>
    intro h
    obtain ⟨k1, v1⟩ := p
    by_cases hk : k = k1
    · subst hk
      simp only [alookup, if_pos rfl] at h
      obtain rfl : v1 = v := Option.some_inj.mp h
      exact List.mem_cons_self _ _
    · simp only [alookup, if_neg hk] at h
      exact List.mem_cons_of_mem _ (ih h)

theorem alookup_eq_none {α : Type} [DecidableEq α] {β : Type} {k : α} :
    ∀ {l : List (α × β)}, (∀ p ∈ l, p.1 ≠ k) → alookup k l = none := by
  intro l
  induction l with
  | nil => intro _; rfl
  | cons p rest ih =>
    intro h
    obtain ⟨k1, v1⟩ := p
    have hk : k ≠ k1 := fun he => h (k1, v1) (List.mem_cons_self _ _) (by simp [he])
    simp only [alookup, if_neg hk]
    exact ih fun q hq => h q (List.mem_cons_of_mem _ hq)

/-- Every anchor value in the annual table is positive. -/
theorem fallback_values_pos : ∀ p ∈ fallback_cpi, (0 : ℚ) < p.2 := by
  intro p hp
  fin_cases hp <;> norm_num

/-- Every value in the monthly table is positive. -/
theorem monthly_values_pos : ∀ p ∈ monthly_cpi_data, (0 : ℚ) < p.2 := by
  intro p hp
  fin_cases hp <;> norm_num

/-- If the interpolation loop returns a value and all table values are
positive, the returned value is positive (the bracketing guard makes it a
convex combination of two positive anchors). -/
theorem interpScan_pos (year : ℤ) :
    ∀ (l : List (ℤ × ℚ)), (∀ p ∈ l, (0 : ℚ) < p.2) →
      ∀ v : ℚ, interpScan year l = some v → 0 < v := by
  intro l
  induction l with
  | nil => intro _ v h; simp [interpScan] at h
  | cons p tl ih =>
    intro hpos v h
    cases tl with
    | nil => simp [interpScan] at h
    | cons q tl2 =>
      by_cases hc : p.1 ≤ year ∧ year ≤ q.1
      · rw [interpScan, if_pos hc] at h
        obtain rfl : _ = v := Option.some_inj.mp h
        have hv1 : 0 < p.2 := hpos p (List.mem_cons_self _ _)
        have hv2 : 0 < q.2 := hpos q (List.mem_cons_of_mem _ (List.mem_cons_self _ _))
        by_cases hy : p.1 = q.1
        · rw [hy, sub_self, div_zero, zero_mul, add_zero]
          exact hv1
        · have hyy : p.1 < q.1 := lt_of_le_of_ne (le_trans hc.1 hc.2) hy
          have hden : (0 : ℚ) < (q.1 : ℚ) - (p.1 : ℚ) := by
            rw [sub_pos]; exact_mod_cast hyy
          have ht0 : 0 ≤ ((year : ℚ) - (p.1 : ℚ)) / ((q.1 : ℚ) - (p.1 : ℚ)) := by
            apply div_nonneg _ hden.le
            rw [sub_nonneg]; exact_mod_cast hc.1
          have ht1 : ((year : ℚ) - (p.1 : ℚ)) / ((q.1 : ℚ) - (p.1 : ℚ)) ≤ 1 := by
            rw [div_le_one hden]
            have : (year : ℚ) ≤ (q.1 : ℚ) := by exact_mod_cast hc.2
            linarith
          set t : ℚ := ((year : ℚ) - (p.1 : ℚ)) / ((q.1 : ℚ) - (p.1 : ℚ)) with hT
          rcases lt_or_eq_of_le ht1 with ht | ht
          · nlinarith [mul_pos (sub_pos.mpr ht) hv1, mul_nonneg ht0 hv2.le]
          · rw [ht]; nlinarith [hv2]
      · rw [interpScan, if_neg hc] at h
        exact ih (fun r hr => hpos r (List.mem_cons_of_mem _ hr)) v h

/-- If `year` lies between the first key and the last key of a table with at
least two entries, the interpolation loop finds some bracketing pair. -/
theorem interpScan_isSome (year : ℤ) :
    ∀ (l : List (ℤ × ℚ)) (a : ℤ × ℚ) (hne : l ≠ []),
      a.1 ≤ year → year ≤ (l.getLast hne).1 → (interpScan year (a :: l)).isSome := by
  intro l
  induction l with
  | nil => intro a hne; exact absurd rfl hne
  | cons b tl ih =>
    intro a hne h1 h2
    by_cases hc : a.1 ≤ year ∧ year ≤ b.1
    · rw [interpScan, if_pos hc]; rfl
    · have hb : b.1 < year := by
        rcases not_and_or.mp hc with h | h
        · exact absurd h1 h
        · exact lt_of_not_le h
      rw [interpScan, if_neg hc]
      cases tl with
      | nil =>
        exfalso
        have : year ≤ b.1 := by simpa using h2
        omega
      | cons c tl2 =>
        have hlast : ((c :: tl2).getLast (List.cons_ne_nil _ _)).1
            = ((b :: c :: tl2).getLast hne).1 := by
          rw [List.getLast_cons (List.cons_ne_nil _ _)]
        exact ih b (List.cons_ne_nil _ _) hb.le (hlast ▸ h2)

/-- The interpolation loop returns the linear interpolation of the FIRST
bracketing pair; when `year` lies strictly inside an adjacent pair and all
earlier keys are below `year`, that pair is the bracketing one. -/
theorem interpScan_bracket (year y1 y2 : ℤ) (v1 v2 : ℚ) (post : List (ℤ × ℚ))
    (h1 : y1 < year) (h2 : year ≤ y2) :
    ∀ pre : List (ℤ × ℚ), (∀ p ∈ pre, p.1 < year) →
      interpScan year (pre ++ (y1, v1) :: (y2, v2) :: post)
        = some (v1 + ((year : ℚ) - (y1 : ℚ)) / ((y2 : ℚ) - (y1 : ℚ)) * (v2 - v1)) := by
  intro pre
  induction pre with
  | nil =>
    intro _
    rw [List.nil_append, interpScan, if_pos ⟨h1.le, h2⟩]
  | cons p pre2 ih =>
    intro hpre
    have hp : p.1 < year := hpre p (List.mem_cons_self _ _)
    cases pre2 with
    | nil =>
      rw [List.cons_append, List.nil_append, interpScan,
        if_neg (by push_neg; intro _; exact h1)]
      exact ih fun r hr => absurd hr (List.not_mem_nil r)
    | cons q pre3 =>
      have hq : q.1 < year := hpre q (List.mem_cons_of_mem _ (List.mem_cons_self _ _))
      rw [List.cons_append, List.cons_append, interpScan,
        if_neg (by push_neg; intro _; exact hq), ← List.cons_append]
      exact ih fun r hr => hpre r (List.mem_cons_of_mem _ hr)

/-- Exact-match case of `interpolate_cpi`. -/
theorem interpolate_cpi_lookup {year : ℤ} {tbl : List (ℤ × ℚ)} {v : ℚ}
    (h : alookup year tbl = some v) : interpolate_cpi year tbl = v := by
  unfold interpolate_cpi
  rw [h]

/-- The anchor table is already in strictly ascending key order, so the
`sorted(...)` step is the identity on it. -/
theorem sort_fallback_cons :
    List.insertionSort keyLE fallback_cpi = ((1913 : ℤ), (9.9 : ℚ)) :: fallback_cpi.tail := rfl

theorem fallback_pairwise : List.Pairwise keyLT fallback_cpi := by decide

theorem fallback_keys_bounded : ∀ p ∈ fallback_cpi, 1913 ≤ p.1 ∧ p.1 ≤ 2024 := by decide

/-- Evaluation of `interpolate_cpi` on the built-in table when the year is
not an exact anchor: the three remaining cases of the source. -/
theorem interpolate_cpi_fallback_eval (year : ℤ) (hlk : alookup year fallback_cpi = none) :
    interpolate_cpi year fallback_cpi =
      if year < 1913 then (9.9 : ℚ) / (1.03 : ℚ) ^ ((1913 : ℤ) - year).toNat
      else if 2024 < year then (315.6 : ℚ) * (1.025 : ℚ) ^ (year - (2024 : ℤ)).toNat
      else (interpScan year fallback_cpi).getD 250.0 := by
  unfold interpolate_cpi
  rw [hlk, sort_fallback_cons]
  rfl

/-- The function `interpolate_cpi` is strictly positive on the built-in table for every
integer year. -/
theorem interpolate_cpi_fallback_pos (year : ℤ) : 0 < interpolate_cpi year fallback_cpi := by
  cases hl : alookup year fallback_cpi with
  | some v =>
    rw [interpolate_cpi_lookup hl]
    exact fallback_values_pos _ (alookup_mem hl)
  | none =>
    rw [interpolate_cpi_fallback_eval year hl]
    split_ifs with h1 h2
    · exact div_pos (by norm_num) (pow_pos (by norm_num) _)
    · exact mul_pos (by norm_num) (pow_pos (by norm_num) _)
    · cases hsc : interpScan year fallback_cpi with
      | some v =>
        simp only [hsc, Option.getD_some]
        exact interpScan_pos year fallback_cpi fallback_values_pos v hsc
      | none => simp only [hsc, Option.getD_none]; norm_num

theorem get_annual_cpi_pos (year : ℤ) : 0 < get_annual_cpi year := by
  unfold get_annual_cpi
  cases hl : alookup year fallback_cpi with
  | some v => exact fallback_values_pos _ (alookup_mem hl)
  | none => exact interpolate_cpi_fallback_pos year

/-- When the monthly table misses, `get_monthly_cpi` degrades to the annual
value (the `if annual_cpi:` truthiness test passes because the annual value
is strictly positive). -/
theorem get_monthly_cpi_of_annual {year month : ℤ}
    (h : alookup (year, month) monthly_cpi_data = none) :
    get_monthly_cpi year month = some (get_annual_cpi year) := by
  unfold get_monthly_cpi
  rw [h]
  simp [ne_of_gt (get_annual_cpi_pos year)]

theorem get_monthly_cpi_some_pos (year month : ℤ) :
    ∃ v : ℚ, get_monthly_cpi year month = some v ∧ 0 < v := by
  cases h : alookup (year, month) monthly_cpi_data with
  | some v =>
    refine ⟨v, ?_, monthly_values_pos _ (alookup_mem h)⟩
    unfold get_monthly_cpi
    rw [h]
  | none =>
    exact ⟨get_annual_cpi year, get_monthly_cpi_of_annual h, get_annual_cpi_pos year⟩

/-- The function `calculate_inflation_rate` always takes the CPI branch: the start CPI
resolves to a positive value, the reference CPI is the December 2024 entry
`315.6`, and the result is the relative index change with
`years_elapsed = 2024 - start_year`. -/
theorem calculate_inflation_rate_spec (d : PyDate) :
    ∃ s : ℚ, get_monthly_cpi d.year d.month = some s ∧ 0 < s ∧
      calculate_inflation_rate d = (((315.6 : ℚ) - s) / s, 2024 - d.year) := by
  obtain ⟨s, hs, hpos⟩ := get_monthly_cpi_some_pos d.year d.month
  have hc : get_monthly_cpi 2024 12 = some (315.6 : ℚ) := rfl
  refine ⟨s, hs, hpos, ?_⟩
  simp only [calculate_inflation_rate, hs, hc]
  rw [if_pos ⟨ne_of_gt hpos, by norm_num⟩]

/-! ### Salary-calculator helper lemmas -/

/-- For a middle-regime date and positive salary, the returned
`cola_adjusted_salary` field is the rounded threshold-branch value (the
truthiness test cannot fire because the value is positive). -/
theorem cola_field_eq (d : PyDate) (sal : ℚ)
    (hpre : ¬ d < (⟨1991, 1, 1⟩ : PyDate)) (hpost : ¬ (⟨2021, 12, 31⟩ : PyDate) < d)
    (hs : 0 < sal) :
    (calculate_adjusted_salary d sal).cola_adjusted_salary
      = some (pyRound (if (75000 : ℚ) ≤ sal + 8000 then sal + 8000 + 3000
                       else (sal + 8000) * 1.04) 2) := by
  have hcpos : (0 : ℚ) < (if (75000 : ℚ) ≤ sal + 8000 then sal + 8000 + 3000
                          else (sal + 8000) * 1.04) := by
    clear hpre hpost
    split_ifs with h
    · linarith
    · have h8 : (0 : ℚ) < sal + 8000 := by linarith
      nlinarith
  simp only [calculate_adjusted_salary, _determine_category_and_calculate]
  rw [if_neg hpre, if_neg hpost]
  simp only [_handle_cola_period, truthyRound2]
  rw [if_pos (ne_of_gt hcpos)]

/-- If the unrounded de facto pay cut of a middle-regime request is exactly
zero, the `round(x, 2) if x else None` boundary expression turns the field
into `None` (Python truthiness: `0.0` is falsy). -/
theorem paycut_field_none_of_zero (d : PyDate) (sal : ℚ)
    (hpre : ¬ d < (⟨1991, 1, 1⟩ : PyDate)) (hpost : ¬ (⟨2021, 12, 31⟩ : PyDate) < d)
    (hz : sal * (1 + (calculate_inflation_rate d).1)
        - (if (75000 : ℚ) ≤ sal + 8000 then sal + 8000 + 3000
           else (sal + 8000) * 1.04) = 0) :
    (calculate_adjusted_salary d sal).defacto_paycut = none ∧
    (calculate_adjusted_salary d sal).category = "1991-2021 Employment (COLA Period)" := by
  constructor
  · simp only [calculate_adjusted_salary, _determine_category_and_calculate]
    rw [if_neg hpre, if_neg hpost]
    simp only [_handle_cola_period, truthyRound2]
    rw [hz]
    simp
  · simp only [calculate_adjusted_salary, _determine_category_and_calculate]
    rw [if_neg hpre, if_neg hpost]
    rfl

/-- When the unrounded de facto pay cut is nonzero, the field is the rounded
difference of the unrounded inflation-adjusted and COLA-adjusted values. -/
theorem paycut_field_eq (d : PyDate) (sal : ℚ)
    (hpre : ¬ d < (⟨1991, 1, 1⟩ : PyDate)) (hpost : ¬ (⟨2021, 12, 31⟩ : PyDate) < d)
    (hnz : sal * (1 + (calculate_inflation_rate d).1)
        - (if (75000 : ℚ) ≤ sal + 8000 then sal + 8000 + 3000
           else (sal + 8000) * 1.04) ≠ 0) :
    (calculate_adjusted_salary d sal).defacto_paycut
      = some (pyRound (sal * (1 + (calculate_inflation_rate d).1)
          - (if (75000 : ℚ) ≤ sal + 8000 then sal + 8000 + 3000
             else (sal + 8000) * 1.04)) 2) := by
  simp only [calculate_adjusted_salary, _determine_category_and_calculate]
  rw [if_neg hpre, if_neg hpost]
  simp only [_handle_cola_period, truthyRound2]
  rw [if_pos hnz]

/-- Inflation rate resolved for any date in year 2000 (annual anchor 172.2). -/
theorem rate_year_2000 (m dd : ℤ) (hm : alookup ((2000 : ℤ), m) monthly_cpi_data = none) :
    calculate_inflation_rate ⟨2000, m, dd⟩ = (((315.6 : ℚ) - 172.2) / 172.2, 24) := by
  have hs : get_monthly_cpi 2000 m = some (172.2 : ℚ) := by
    rw [get_monthly_cpi_of_annual hm]
    rfl
  have hc : get_monthly_cpi 2024 12 = some (315.6 : ℚ) := rfl
  simp only [calculate_inflation_rate, hs, hc]
  rw [if_pos ⟨by norm_num, by norm_num⟩]
  norm_num

/-- Inflation rate resolved for June 2014 (exact monthly anchor 238.3). -/
theorem rate_june_2014 (dd : ℤ) :
    calculate_inflation_rate ⟨2014, 6, dd⟩ = (((315.6 : ℚ) - 238.3) / 238.3, 10) := by
  have hs : get_monthly_cpi 2014 6 = some (238.3 : ℚ) := rfl
  have hc : get_monthly_cpi 2024 12 = some (315.6 : ℚ) := rfl
  simp only [calculate_inflation_rate, hs, hc]
  rw [if_pos ⟨by norm_num, by norm_num⟩]
  norm_num

/-! ### Claim theorems -/

/-- C3: The regime classification is total and exclusive — every start date
falls in exactly one of {pre, middle, post} (in particular every date on or
after 1913-01-01) — and the boundaries are exact: `1991-01-01` and
`2021-12-31` classify as the middle (COLA) regime, `1990-12-31` as pre and
`2022-01-01` as post. -/
theorem regime_classification_total_exclusive :
    (∀ d : PyDate,
      ((d < ⟨1991, 1, 1⟩ ∨ ((⟨1991, 1, 1⟩ : PyDate) ≤ d ∧ d ≤ ⟨2021, 12, 31⟩) ∨
          (⟨2021, 12, 31⟩ : PyDate) < d) ∧
        ¬(d < ⟨1991, 1, 1⟩ ∧ ((⟨1991, 1, 1⟩ : PyDate) ≤ d ∧ d ≤ ⟨2021, 12, 31⟩)) ∧
        ¬(d < ⟨1991, 1, 1⟩ ∧ (⟨2021, 12, 31⟩ : PyDate) < d) ∧
        ¬(((⟨1991, 1, 1⟩ : PyDate) ≤ d ∧ d ≤ ⟨2021, 12, 31⟩) ∧ (⟨2021, 12, 31⟩ : PyDate) < d))) ∧
    (∀ (d : PyDate) (sal infl : ℚ),
      ((_determine_category_and_calculate d sal infl).1 = "Pre-1991 Employment"
        ↔ d < ⟨1991, 1, 1⟩) ∧
      ((_determine_category_and_calculate d sal infl).1 = "1991-2021 Employment (COLA Period)"
        ↔ ((⟨1991, 1, 1⟩ : PyDate) ≤ d ∧ d ≤ ⟨2021, 12, 31⟩)) ∧
      ((_determine_category_and_calculate d sal infl).1 = "Post-2021 Employment"
        ↔ (⟨2021, 12, 31⟩ : PyDate) < d)) ∧
    (∀ sal infl : ℚ,
      (_determine_category_and_calculate ⟨1991, 1, 1⟩ sal infl).1
        = "1991-2021 Employment (COLA Period)" ∧
      (_determine_category_and_calculate ⟨2021, 12, 31⟩ sal infl).1
        = "1991-2021 Employment (COLA Period)" ∧
      (_determine_category_and_calculate ⟨1990, 12, 31⟩ sal infl).1 = "Pre-1991 Employment" ∧
      (_determine_category_and_calculate ⟨2022, 1, 1⟩ sal infl).1 = "Post-2021 Employment") := by
  have excl : ∀ d : PyDate,
      ((d < ⟨1991, 1, 1⟩ ∨ ((⟨1991, 1, 1⟩ : PyDate) ≤ d ∧ d ≤ ⟨2021, 12, 31⟩) ∨
          (⟨2021, 12, 31⟩ : PyDate) < d) ∧
        ¬(d < ⟨1991, 1, 1⟩ ∧ ((⟨1991, 1, 1⟩ : PyDate) ≤ d ∧ d ≤ ⟨2021, 12, 31⟩)) ∧
        ¬(d < ⟨1991, 1, 1⟩ ∧ (⟨2021, 12, 31⟩ : PyDate) < d) ∧
        ¬(((⟨1991, 1, 1⟩ : PyDate) ≤ d ∧ d ≤ ⟨2021, 12, 31⟩) ∧ (⟨2021, 12, 31⟩ : PyDate) < d)) := by
    intro d
    obtain ⟨y, m, dd⟩ := d
    simp only [PyDate.le_def, PyDate.lt_def]
    omega
  have H : ∀ (d : PyDate) (sal infl : ℚ),
      (d < ⟨1991, 1, 1⟩ ∧
        (_determine_category_and_calculate d sal infl).1 = "Pre-1991 Employment") ∨
      (((⟨1991, 1, 1⟩ : PyDate) ≤ d ∧ d ≤ ⟨2021, 12, 31⟩) ∧
        (_determine_category_and_calculate d sal infl).1
          = "1991-2021 Employment (COLA Period)") ∨
      ((⟨2021, 12, 31⟩ : PyDate) < d ∧
        (_determine_category_and_calculate d sal infl).1 = "Post-2021 Employment") := by
    intro d sal infl
    by_cases h1 : d < (⟨1991, 1, 1⟩ : PyDate)
    · refine Or.inl ⟨h1, ?_⟩
      simp only [_determine_category_and_calculate, if_pos h1]
      rfl
    by_cases h2 : (⟨2021, 12, 31⟩ : PyDate) < d
    · refine Or.inr (Or.inr ⟨h2, ?_⟩)
      simp only [_determine_category_and_calculate, if_neg h1, if_pos h2]
      rfl
    · refine Or.inr (Or.inl ⟨⟨h1, h2⟩, ?_⟩)
      simp only [_determine_category_and_calculate, if_neg h1, if_neg h2]
      rfl
  refine ⟨excl, ?_, ?_⟩
  · intro d sal infl
    rcases H d sal infl with ⟨h, hc⟩ | ⟨h, hc⟩ | ⟨h, hc⟩
    · refine ⟨by rw [hc]; exact iff_of_true rfl h, ?_, ?_⟩
      · rw [hc]
        exact iff_of_false (by decide) (fun hm => (excl d).2.1 ⟨h, hm⟩)
      · rw [hc]
        exact iff_of_false (by decide) (fun hp => (excl d).2.2.1 ⟨h, hp⟩)
    · refine ⟨?_, by rw [hc]; exact iff_of_true rfl h, ?_⟩
      · rw [hc]
        exact iff_of_false (by decide) (fun hpre => (excl d).2.1 ⟨hpre, h⟩)
      · rw [hc]
        exact iff_of_false (by decide) (fun hp => (excl d).2.2.2 ⟨h, hp⟩)
    · refine ⟨?_, ?_, by rw [hc]; exact iff_of_true rfl h⟩
      · rw [hc]
        exact iff_of_false (by decide) (fun hpre => (excl d).2.2.1 ⟨hpre, h⟩)
      · rw [hc]
        exact iff_of_false (by decide) (fun hm => (excl d).2.2.2 ⟨hm, h⟩)
  · intro sal infl
    exact ⟨rfl, rfl, rfl, rfl⟩

/-- C6: `calculate_inflation_rate` is deterministic against the fixed
reference period (2024, December; index 315.6), not wall-clock today: for
every start date the rate is the relative change of the resolved CPI values
and `years_elapsed = 2024 - start_year`. -/
theorem inflation_rate_fixed_reference (d : PyDate) :
    get_monthly_cpi 2024 12 = some (315.6 : ℚ) ∧
    ∃ s : ℚ, get_monthly_cpi d.year d.month = some s ∧
      calculate_inflation_rate d = (((315.6 : ℚ) - s) / s, 2024 - d.year) := by
  obtain ⟨s, hs, -, hr⟩ := calculate_inflation_rate_spec d
  exact ⟨rfl, s, hs, hr⟩

/-- C9: the degenerate constant fallback `250.0` inside `interpolate_cpi` is
unreachable for every integer year: one of the four defined cases
(exact match, backward extrapolation below 1913, forward extrapolation above
2024, or a bracketing pair found by the interpolation loop) always applies.
Since `sorted(fallback_cpi)` is `fallback_cpi` itself
(`sort_fallback_cons`), the `getD 250.0` in the final case never uses its
default. -/
theorem interpolate_degenerate_unreachable (year : ℤ) :
    (alookup year fallback_cpi).isSome ∨ year < 1913 ∨ 2024 < year ∨
      (interpScan year fallback_cpi).isSome := by
  by_cases h1 : year < 1913
  · exact Or.inr (Or.inl h1)
  by_cases h2 : 2024 < year
  · exact Or.inr (Or.inr (Or.inl h2))
  refine Or.inr (Or.inr (Or.inr ?_))
  have hne : fallback_cpi.tail ≠ [] := by decide
  exact interpScan_isSome year fallback_cpi.tail ((1913 : ℤ), (9.9 : ℚ)) hne
    (not_lt.mp h1) (not_lt.mp h2)

/-- C10: `get_annual_cpi` is strictly positive for every integer year (it
never yields `None`), hence `get_monthly_cpi` always resolves, hence the
compound-inflation fallback branch of `calculate_inflation_rate` is
unreachable and the rate is always computed from resolved CPI values. -/
theorem cpi_always_resolves :
    (∀ year : ℤ, 0 < get_annual_cpi year) ∧
    (∀ year month : ℤ, (get_monthly_cpi year month).isSome) ∧
    (∀ d : PyDate, ∃ s : ℚ, get_monthly_cpi d.year d.month = some s ∧ s ≠ 0 ∧
      (calculate_inflation_rate d).1 = ((315.6 : ℚ) - s) / s) := by
  refine ⟨get_annual_cpi_pos, ?_, ?_⟩
  · intro y m
    obtain ⟨v, hv, -⟩ := get_monthly_cpi_some_pos y m
    simp [hv]
  · intro d
    obtain ⟨s, hs, hpos, hr⟩ := calculate_inflation_rate_spec d
    exact ⟨s, hs, ne_of_gt hpos, by rw [hr]⟩

/-- C1 (failing case): for the middle-regime request with
`start_date = 2000-01-15` and `original_salary = 7462000/711 ≈ 10495.08`,
the unrounded de facto pay cut is exactly zero, and the response then
carries `defacto_paycut = none` even though the category is the COLA
regime — the boundary expression `round(x, 2) if x else None` treats `0.0`
as falsy, so the claimed presence-iff-middle-regime invariant fails. -/
theorem middle_regime_zero_paycut_suppressed :
    (calculate_adjusted_salary ⟨2000, 1, 15⟩ (7462000 / 711)).category
        = "1991-2021 Employment (COLA Period)" ∧
    (7462000 / 711 : ℚ) * (1 + (calculate_inflation_rate ⟨2000, 1, 15⟩).1)
        - ((7462000 / 711 : ℚ) + 8000) * 1.04 = 0 ∧
    (calculate_adjusted_salary ⟨2000, 1, 15⟩ (7462000 / 711)).defacto_paycut = none := by
  have hz : (7462000 / 711 : ℚ) * (1 + (calculate_inflation_rate ⟨2000, 1, 15⟩).1)
      - (if (75000 : ℚ) ≤ 7462000 / 711 + 8000 then (7462000 / 711 : ℚ) + 8000 + 3000
         else ((7462000 / 711 : ℚ) + 8000) * 1.04) = 0 := by
    rw [rate_year_2000 1 15 rfl]
    norm_num
  have h := paycut_field_none_of_zero ⟨2000, 1, 15⟩ (7462000 / 711) (by decide) (by decide) hz
  refine ⟨h.2, ?_, h.1⟩
  rw [if_neg (by norm_num : ¬ ((75000 : ℚ) ≤ 7462000 / 711 + 8000))] at hz
  exact hz

/-- C2 (failing case): for the middle-regime request with
`start_date = 2014-06-15` (monthly anchor 238.3) and
`original_salary = 247832000/8471 ≈ 29256.52`, the unrounded difference
`inflation_adjusted_salary - cola_adjusted_salary` is exactly zero, and the
returned `defacto_paycut` is `none` instead of the rounded difference
`0.00` — the equality claimed for every middle-regime result fails at the
zero crossing because of the same truthiness test. -/
theorem paycut_equation_fails_at_zero :
    (calculate_adjusted_salary ⟨2014, 6, 15⟩ (247832000 / 8471)).category
        = "1991-2021 Employment (COLA Period)" ∧
    (247832000 / 8471 : ℚ) * (1 + (calculate_inflation_rate ⟨2014, 6, 15⟩).1)
        - ((247832000 / 8471 : ℚ) + 8000) * 1.04 = 0 ∧
    (calculate_adjusted_salary ⟨2014, 6, 15⟩ (247832000 / 8471)).defacto_paycut = none := by
  have hz : (247832000 / 8471 : ℚ) * (1 + (calculate_inflation_rate ⟨2014, 6, 15⟩).1)
      - (if (75000 : ℚ) ≤ 247832000 / 8471 + 8000 then (247832000 / 8471 : ℚ) + 8000 + 3000
         else ((247832000 / 8471 : ℚ) + 8000) * 1.04) = 0 := by
    rw [rate_june_2014 15]
    norm_num
  have h := paycut_field_none_of_zero ⟨2014, 6, 15⟩ (247832000 / 8471) (by decide) (by decide) hz
  refine ⟨h.2, ?_, h.1⟩
  rw [if_neg (by norm_num : ¬ ((75000 : ℚ) ≤ 247832000 / 8471 + 8000))] at hz
  exact hz

/-- C4: for every middle-regime request with positive salary, the returned
`cola_adjusted_salary` is the rounded value of the hard-cliff threshold
branch on `cola_base = original_salary + 8000` (the equal case taking the
`≥ 75000` branch); in particular `original_salary = 67000` yields `78000`
and `original_salary = 66999` yields `77998.96`. -/
theorem cola_threshold_cliff (d : PyDate) (sal : ℚ)
    (h1 : (⟨1991, 1, 1⟩ : PyDate) ≤ d) (h2 : d ≤ ⟨2021, 12, 31⟩) (hs : 0 < sal) :
    (calculate_adjusted_salary d sal).cola_adjusted_salary
      = some (pyRound (if (75000 : ℚ) ≤ sal + 8000 then sal + 8000 + 3000
                       else (sal + 8000) * 1.04) 2) ∧
    (calculate_adjusted_salary ⟨2000, 1, 15⟩ 67000).cola_adjusted_salary = some 78000 ∧
    (calculate_adjusted_salary ⟨2000, 1, 15⟩ 66999).cola_adjusted_salary = some 77998.96 := by
  refine ⟨cola_field_eq d sal h1 h2 hs, ?_, ?_⟩
  · rw [cola_field_eq ⟨2000, 1, 15⟩ 67000 (by decide) (by decide) (by norm_num)]
    norm_num [pyRound, roundHalfEven]
  · rw [cola_field_eq ⟨2000, 1, 15⟩ 66999 (by decide) (by decide) (by norm_num)]
    norm_num [pyRound, roundHalfEven]

/-- Witness for `cola_threshold_cliff` at the concrete middle-regime request
`(1995-03-15, 70000)`: `cola_base = 78000 ≥ 75000`, high branch. -/
theorem cola_threshold_cliff_witness :
    (0 : ℚ) < 70000 ∧
    (calculate_adjusted_salary ⟨1995, 3, 15⟩ 70000).cola_adjusted_salary
      = some (pyRound (if (75000 : ℚ) ≤ 70000 + 8000 then (70000 : ℚ) + 8000 + 3000
                       else ((70000 : ℚ) + 8000) * 1.04) 2) :=
  ⟨by norm_num,
   (cola_threshold_cliff ⟨1995, 3, 15⟩ 70000 (by decide) (by decide) (by norm_num)).1⟩

/-- C5: on a cache miss `get_cpi_data` never propagates a fetch failure: for
each of the failure modes (network error, HTTP status error, malformed
payload, or a decoded response whose remote status is not the success
sentinel) it returns the synthesized fallback series with the cache
untouched; on a successful remote fetch it returns the payload after
writing it through to the cache under the `(start_year, end_year)` key
(where the write is an unconditional overwrite by construction of
`cacheInsert`, and the written value is immediately readable). -/
theorem get_cpi_data_failure_fallback_and_writethrough
    (cache : Cache) (sy ey : ℤ)
    (hmiss : alookup (cacheKey sy ey) cache = none) :
    (∀ fetch : FetchResult,
      (fetch = FetchResult.networkError ∨ fetch = FetchResult.httpStatusError ∨
       fetch = FetchResult.malformedPayload) →
      get_cpi_data cache fetch sy ey = (get_fallback_cpi_data sy ey, cache, true)) ∧
    (∀ p : SeriesPayload, p.status ≠ "REQUEST_SUCCEEDED" →
      get_cpi_data cache (FetchResult.response p) sy ey
        = (get_fallback_cpi_data sy ey, cache, true)) ∧
    (∀ p : SeriesPayload, p.status = "REQUEST_SUCCEEDED" →
      get_cpi_data cache (FetchResult.response p) sy ey
        = (p, cacheInsert (cacheKey sy ey) p cache, true) ∧
      alookup (cacheKey sy ey) (cacheInsert (cacheKey sy ey) p cache) = some p) := by
  refine ⟨?_, ?_, ?_⟩
  · rintro fetch (rfl | rfl | rfl) <;> simp [get_cpi_data, hmiss]
  · intro p hp
    simp [get_cpi_data, hmiss, hp]
  · intro p hp
    constructor
    · simp [get_cpi_data, hmiss, hp]
    · simp [cacheInsert, alookup]

/-- Witness for `get_cpi_data_failure_fallback_and_writethrough`: empty
cache, network error, range 2020–2024 — the call degrades to the fallback
series without touching the cache. -/
theorem get_cpi_data_failure_fallback_witness :
    get_cpi_data [] FetchResult.networkError 2020 2024
      = (get_fallback_cpi_data 2020 2024, [], true) :=
  (get_cpi_data_failure_fallback_and_writethrough [] 2020 2024 rfl).1
    FetchResult.networkError (Or.inl rfl)

/-- C7: interpolation round-trip and betweenness on the built-in anchor
table: any year present in the table returns exactly the table value, and a
year strictly between two adjacent anchors returns their linear
interpolation, which lies strictly between the two anchor values whenever
they differ. -/
theorem interpolate_roundtrip_betweenness
    (pre post : List (ℤ × ℚ)) (y1 y2 year : ℤ) (v1 v2 : ℚ)
    (htbl : fallback_cpi = pre ++ (y1, v1) :: (y2, v2) :: post)
    (hy1 : y1 < year) (hy2 : year < y2) :
    (∀ (y : ℤ) (v : ℚ), alookup y fallback_cpi = some v → interpolate_cpi y fallback_cpi = v) ∧
    interpolate_cpi year fallback_cpi
      = v1 + ((year : ℚ) - (y1 : ℚ)) / ((y2 : ℚ) - (y1 : ℚ)) * (v2 - v1) ∧
    (v1 ≠ v2 →
      min v1 v2 < interpolate_cpi year fallback_cpi ∧
      interpolate_cpi year fallback_cpi < max v1 v2) := by
  have pw : List.Pairwise keyLT fallback_cpi := fallback_pairwise
  rw [htbl] at pw
  rw [List.pairwise_append] at pw
  obtain ⟨pwpre, pwmid, hcross⟩ := pw
  have hy1mem : ((y1, v1) : ℤ × ℚ) ∈ fallback_cpi := by
    rw [htbl]; exact List.mem_append_right _ (List.mem_cons_self _ _)
  have hy2mem : ((y2, v2) : ℤ × ℚ) ∈ fallback_cpi := by
    rw [htbl]
    exact List.mem_append_right _ (List.mem_cons_of_mem _ (List.mem_cons_self _ _))
  have hy1b := fallback_keys_bounded _ hy1mem
  have hy2b := fallback_keys_bounded _ hy2mem
  have hpre : ∀ p ∈ pre, p.1 < year := by
    intro p hp
    have : keyLT p (y1, v1) := hcross p hp _ (List.mem_cons_self _ _)
    have hlt : p.1 < y1 := this
    omega
  have hpost : ∀ p ∈ post, year < p.1 := by
    intro p hp
    rcases List.pairwise_cons.mp pwmid with ⟨h12, pw2⟩
    rcases List.pairwise_cons.mp pw2 with ⟨h2post, -⟩
    have hlt : y2 < p.1 := h2post p hp
    omega
  have hnone : alookup year fallback_cpi = none := by
    apply alookup_eq_none
    intro p hp
    rw [htbl] at hp
    rcases List.mem_append.mp hp with h | h
    · exact ne_of_lt (hpre p h)
    · rcases List.mem_cons.mp h with h | h
      · rw [h]; exact fun he => absurd he.symm (ne_of_gt hy1)
      · rcases List.mem_cons.mp h with h | h
        · rw [h]; exact fun he => absurd he.symm (ne_of_lt hy2)
        · exact ne_of_gt (hpost p h)
  have hscan : interpScan year fallback_cpi
      = some (v1 + ((year : ℚ) - (y1 : ℚ)) / ((y2 : ℚ) - (y1 : ℚ)) * (v2 - v1)) := by
    rw [htbl]
    exact interpScan_bracket year y1 y2 v1 v2 post hy1 hy2.le pre hpre
  have hval : interpolate_cpi year fallback_cpi
      = v1 + ((year : ℚ) - (y1 : ℚ)) / ((y2 : ℚ) - (y1 : ℚ)) * (v2 - v1) := by
    rw [interpolate_cpi_fallback_eval year hnone,
      if_neg (by omega : ¬ year < 1913), if_neg (by omega : ¬ 2024 < year),
      hscan, Option.getD_some]
  refine ⟨fun y v h => interpolate_cpi_lookup h, hval, ?_⟩
  intro hne
  rw [hval]
  have hden : (0 : ℚ) < (y2 : ℚ) - (y1 : ℚ) := by
    rw [sub_pos]; exact_mod_cast lt_trans hy1 hy2
  have ht0 : 0 < ((year : ℚ) - (y1 : ℚ)) / ((y2 : ℚ) - (y1 : ℚ)) := by
    apply div_pos _ hden
    rw [sub_pos]; exact_mod_cast hy1
  have ht1 : ((year : ℚ) - (y1 : ℚ)) / ((y2 : ℚ) - (y1 : ℚ)) < 1 := by
    rw [div_lt_one hden]
    have : (year : ℚ) < (y2 : ℚ) := by exact_mod_cast hy2
    linarith
  set t : ℚ := ((year : ℚ) - (y1 : ℚ)) / ((y2 : ℚ) - (y1 : ℚ)) with hT
  rcases lt_or_gt_of_ne hne with hlt | hgt
  · rw [min_eq_left hlt.le, max_eq_right hlt.le]
    constructor
    · nlinarith [mul_pos ht0 (sub_pos.mpr hlt)]
    · nlinarith [mul_pos (sub_pos.mpr ht1) (sub_pos.mpr hlt)]
  · rw [min_eq_right hgt.le, max_eq_left hgt.le]
    constructor
    · nlinarith [mul_pos (sub_pos.mpr ht1) (sub_pos.mpr hgt)]
    · nlinarith [mul_pos ht0 (sub_pos.mpr hgt)]

/-- Witness for `interpolate_roundtrip_betweenness` at the adjacent anchors
`(1991, 136.2)` and `(1995, 152.4)` with `year = 1992`:
`interpolate_cpi` returns `136.2 + 1/4 * 16.2 = 140.25`, strictly between
the anchor values. -/
theorem interpolate_roundtrip_betweenness_witness :
    interpolate_cpi 1992 fallback_cpi = 140.25 ∧
    (136.2 : ℚ) < interpolate_cpi 1992 fallback_cpi ∧
    interpolate_cpi 1992 fallback_cpi < 152.4 := by
  have h := interpolate_roundtrip_betweenness
    [(1913, 9.9), (1920, 20.0), (1930, 16.7), (1940, 14.0), (1950, 24.1),
     (1960, 29.6), (1970, 38.8), (1980, 82.4), (1990, 130.7)]
    [(2000, 172.2), (2005, 195.3), (2010, 218.1),
     (2011, 224.9), (2012, 229.6), (2013, 233.0), (2014, 236.7), (2015, 237.0),
     (2016, 240.0), (2017, 245.1), (2018, 251.1), (2019, 255.7), (2020, 258.8),
     (2021, 271.0), (2022, 292.7), (2023, 307.0), (2024, 315.6)]
    1991 1995 1992 136.2 152.4 rfl (by decide) (by decide)
  obtain ⟨-, hval, hbet⟩ := h
  have hv : interpolate_cpi 1992 fallback_cpi = 140.25 := by
    rw [hval]; norm_num
  have hb := hbet (by norm_num)
  rw [min_eq_left (by norm_num), max_eq_right (by norm_num)] at hb
  exact ⟨hv, hb.1, hb.2⟩

/-- C8 fails as stated: if the first call's remote fetch fails, the
fallback payload is returned but NOT cached, so a second call for the same
key consults the remote source again and can return a different payload.
Concretely: first call on an empty cache with a network error, second call
with a successful remote response whose payload differs from the fallback —
the second call fetches (`true` flag) and returns a different payload. -/
theorem cache_idempotence_fails_after_fallback :
    (get_cpi_data ((get_cpi_data [] FetchResult.networkError 2000 2024).2.1)
        (FetchResult.response demoPayload) 2000 2024).2.2 = true ∧
    (get_cpi_data ((get_cpi_data [] FetchResult.networkError 2000 2024).2.1)
        (FetchResult.response demoPayload) 2000 2024).1
      ≠ (get_cpi_data [] FetchResult.networkError 2000 2024).1 := by
  constructor
  · rfl
  · intro h
    have hd := congrArg (fun p : SeriesPayload => p.data.length) h
    simp [get_cpi_data, demoPayload, get_fallback_cpi_data, cacheKey, alookup] at hd
    exact absurd hd (by decide)

/-- C8 (amended): two successive calls for the same `(start_year, end_year)`
key return identical payloads and the second performs no remote fetch,
PROVIDED the key is already cached or the first call's remote fetch
succeeds; the second call's result is then independent of its fetch
outcome. (When the first call falls back on a fetch failure, nothing is
cached and the second call fetches again — see
`cache_idempotence_fails_after_fallback`.) -/
theorem cache_idempotence_after_success
    (cache : Cache) (fetch1 fetch2 : FetchResult) (sy ey : ℤ)
    (h : (alookup (cacheKey sy ey) cache).isSome ∨
      ∃ p : SeriesPayload, fetch1 = FetchResult.response p ∧ p.status = "REQUEST_SUCCEEDED") :
    get_cpi_data ((get_cpi_data cache fetch1 sy ey).2.1) fetch2 sy ey
      = ((get_cpi_data cache fetch1 sy ey).1,
         (get_cpi_data cache fetch1 sy ey).2.1, false) := by
  rcases h with hhit | ⟨p, rfl, hst⟩
  · obtain ⟨v, hv⟩ := Option.isSome_iff_exists.mp hhit
    simp [get_cpi_data, hv]
  · cases hmiss : alookup (cacheKey sy ey) cache with
    | some v => simp [get_cpi_data, hmiss]
    | none =>
      simp only [get_cpi_data, hmiss]
      rw [if_pos hst]
      simp [cacheInsert, alookup, hst]

/-- Witness for `cache_idempotence_after_success`: empty cache, successful
first fetch of `demoPayload`, second call with a network error — the second
call is answered from the cache with the identical payload and no fetch. -/
theorem cache_idempotence_after_success_witness :
    get_cpi_data ((get_cpi_data [] (FetchResult.response demoPayload) 2000 2024).2.1)
        FetchResult.networkError 2000 2024
      = ((get_cpi_data [] (FetchResult.response demoPayload) 2000 2024).1,
         (get_cpi_data [] (FetchResult.response demoPayload) 2000 2024).2.1, false) :=
  cache_idempotence_after_success [] (FetchResult.response demoPayload)
    FetchResult.networkError 2000 2024 (Or.inr ⟨demoPayload, rfl, rfl⟩)

end InflationApp
